import Mathlib

/-!
# Document Artifact Correlation & Status Engine — verification

Shallow embedding of the core logic of `api/shared_blob.py`,
`api/status/__init__.py`, `api/chatbot/__init__.py` and
`api/chatbot/chat_logic.py`.  Python strings are modelled as `List Char`
(sequences of code points); the embedding of character classification
(`str.isdigit`, `str.lower`) covers the ASCII range, matching the
repertoire of the blob names and manifests the engine handles.
-/

/-- Python `str` modelled as a list of code points. -/
abbrev PyStr := List Char

/-- Python whitespace as used by `str.split()` / `str.strip()`
(space, tab, newline, carriage return, vertical tab, form feed). -/
def isPySpace (c : Char) : Bool :=
  c = ' ' || c = '\t' || c = '\n' || c = '\r' || c = '\x0b' || c = '\x0c'

/-- `str.lower` (ASCII range). -/
def pyLower (s : PyStr) : PyStr := s.map Char.toLower

/-- Truthiness of an optional Python string: `None` and `""` are falsy. -/
def truthyStr : Option PyStr → Option PyStr
  | some s => if s = [] then none else some s
  | none => none

/-- Python `a or b` on optional strings. -/
def pyOr (a b : Option PyStr) : Option PyStr :=
  match truthyStr a with
  | some s => some s
  | none => b

/-- Python `a or d` with a (string) literal default. -/
def pyOrD (a : Option PyStr) (d : PyStr) : PyStr :=
  match truthyStr a with
  | some s => s
  | none => d

/-- `str.lstrip()`. -/
def pyLstrip (s : PyStr) : PyStr := s.dropWhile isPySpace

/-- `str.strip()`. -/
def pyStrip (s : PyStr) : PyStr := (s.dropWhile isPySpace).reverse.dropWhile isPySpace |>.reverse

/-- `str.split()` (split on whitespace runs, no empty fields), accumulator form. -/
def pyWordsAux (cur : PyStr) : PyStr → List PyStr
  | [] => if cur = [] then [] else [cur.reverse]
  | c :: cs =>
    if isPySpace c then
      if cur = [] then pyWordsAux [] cs else cur.reverse :: pyWordsAux [] cs
    else
      pyWordsAux (c :: cur) cs

/-- `str.split()`. -/
def pyWords (s : PyStr) : List PyStr := pyWordsAux [] s

/-- Python substring containment (`sub in s`). -/
def pyContains (s sub : PyStr) : Bool :=
  (List.range (s.length + 1)).any (fun i => sub.isPrefixOf (s.drop i))

/-! ## Naming Codec (`api/shared_blob.py`) -/

def VIDEO_SUFFIX : PyStr := ".video.json".data
def QUIZ_SUFFIX : PyStr := ".quiz.json".data

/-- The guard `len(candidate) > 15 and candidate[:14].isdigit() and candidate[14] == '_'`
shared by `_match_processed`, `_extract_doc_base` and `list_known_doc_bases`. -/
def hasTsPrefix (s : PyStr) : Bool :=
  decide (s.length > 15) && (s.take 14).all Char.isDigit && (s.get? 14 == some '_')

/-- Timestamp-prefix stripping step of the decoder. -/
def stripTimestamp (s : PyStr) : PyStr :=
  if hasTsPrefix s then s.drop 15 else s

/-- `candidate[:-len(suf)]`, used to remove a matched artifact suffix. -/
def dropSuffix (s suf : PyStr) : PyStr := s.take (s.length - suf.length)

/-- `core.rsplit('.', 1)[0] if '.' in core else core`. -/
def stripLastExt (s : PyStr) : PyStr :=
  match s.reverse.dropWhile (fun c => c ≠ '.') with
  | [] => s
  | _ :: rest => rest.reverse

/-- Suffix-classification plus extension-stripping steps of the decoder
(everything `_extract_doc_base` does after the timestamp strip). -/
def stripSuffixAndExt (candidate : PyStr) : PyStr :=
  let core :=
    if VIDEO_SUFFIX.isSuffixOf candidate then dropSuffix candidate VIDEO_SUFFIX
    else if QUIZ_SUFFIX.isSuffixOf candidate then dropSuffix candidate QUIZ_SUFFIX
    else candidate
  stripLastExt core

/-- `_extract_doc_base` (shared_blob.py lines 286–296). -/
def extract_doc_base (blob_name : PyStr) : PyStr :=
  stripSuffixAndExt (stripTimestamp blob_name)

/-- `_match_processed` (shared_blob.py lines 267–283): strip timestamp,
strip a `.video.json`/`.quiz.json` suffix, strip a final extension, then
compare lower-cased with the queried base. -/
def match_processed (doc_base blob_name : PyStr) : Bool :=
  let candidate := stripTimestamp blob_name
  let core :=
    if VIDEO_SUFFIX.isSuffixOf candidate then dropSuffix candidate VIDEO_SUFFIX
    else if QUIZ_SUFFIX.isSuffixOf candidate then dropSuffix candidate QUIZ_SUFFIX
    else candidate
  pyLower (stripLastExt core) == pyLower doc_base

/-- Canonical encoded manifest names `{base}.video.json` / `{base}.quiz.json`
(produced by the external pipeline, recognized by the decoder). -/
inductive ArtifactKind where
  | video
  | quiz
deriving DecidableEq

def encode (base : PyStr) : ArtifactKind → PyStr
  | .video => base ++ VIDEO_SUFFIX
  | .quiz => base ++ QUIZ_SUFFIX

/-- A valid document base per the spec's data model (§3): no extension
(hence no `.` at all, since the decoder treats everything after the last
`.` as an extension) and no timestamp prefix of shape `\d{14}_`. -/
def validBase (b : PyStr) : Prop :=
  '.' ∉ b ∧ ¬ (15 ≤ b.length ∧ (b.take 14).all Char.isDigit = true ∧ b.get? 14 = some '_')

instance (b : PyStr) : Decidable (validBase b) := by
  unfold validBase
  infer_instance

/-- The claim shape `\d{14}_.+` over ASCII names: fourteen decimal digits,
an underscore, then at least one further character. -/
def matchesTsRegex (n : PyStr) : Prop :=
  16 ≤ n.length ∧ (n.take 14).all Char.isDigit = true ∧ n.get? 14 = some '_'

instance (n : PyStr) : Decidable (matchesTsRegex n) := by
  unfold matchesTsRegex
  infer_instance

/-! ## Artifact Locator (`api/shared_blob.py`) -/

/-- Per-container listing outcomes: `none` models a storage failure or an
absent container (any exception in `_list_blobs`, or `not cc.exists()`),
`some names` a successful listing in storage order.  `memStore` models the
keys of the in-memory dev fallback `_IN_MEMORY_STORE`. -/
structure Listings where
  upload : Option (List PyStr)
  videos : Option (List PyStr)
  videoFiles : Option (List PyStr)
  quiz : Option (List PyStr)
  memStore : List PyStr
deriving DecidableEq

/-- `_list_blobs` (shared_blob.py lines 241–251): a failed or absent
container degrades to the empty listing. -/
def list_blobs (o : Option (List PyStr)) : List PyStr := o.getD []

/-- The result of `find_processed_artifacts`. -/
structure ArtifactSet where
  video : Option PyStr
  videoFile : Option PyStr
  thumbnail : Option PyStr
  quiz : Option PyStr
deriving DecidableEq

def videoExts : List PyStr := [".mp4".data, ".mov".data, ".mkv".data, ".webm".data]
def imageExts : List PyStr := [".png".data, ".jpg".data, ".jpeg".data, ".webp".data]

/-- `lowered.endswith(('.mp4', '.mov', '.mkv', '.webm'))`. -/
def isVideoExt (n : PyStr) : Bool := videoExts.any (fun e => e.isSuffixOf (pyLower n))

/-- `lowered.endswith(('.png', '.jpg', '.jpeg', '.webp'))`. -/
def isImageExt (n : PyStr) : Bool := imageExts.any (fun e => e.isSuffixOf (pyLower n))

/-- The loop over `generated-video-files` in `find_processed_artifacts`
(lines 308–313): a matching rendered-video name overwrites the accumulator
(`video_file_blob = name`), a matching image name is kept only if none was
seen yet (`thumbnail_blob = name if thumbnail_blob is None else thumbnail_blob`). -/
def videoFileScan (b : PyStr) : List PyStr → Option PyStr × Option PyStr → Option PyStr × Option PyStr
  | [], acc => acc
  | n :: rest, (vf, th) =>
    if isVideoExt n && match_processed b n then
      videoFileScan b rest (some n, th)
    else if isImageExt n && match_processed b n then
      videoFileScan b rest (vf, if th = none then some n else th)
    else
      videoFileScan b rest (vf, th)

/-- `find_processed_artifacts` (shared_blob.py lines 299–318). -/
def find_processed_artifacts (st : Listings) (doc_base : PyStr) : ArtifactSet :=
  let video_blob := (list_blobs st.videos).find?
    (fun n => VIDEO_SUFFIX.isSuffixOf n && match_processed doc_base n)
  let pair := videoFileScan doc_base (list_blobs st.videoFiles) (none, none)
  let quiz_blob := (list_blobs st.quiz).find?
    (fun n => QUIZ_SUFFIX.isSuffixOf n && match_processed doc_base n)
  { video := video_blob, videoFile := pair.1, thumbnail := pair.2, quiz := quiz_blob }

/-! ## Status Reconciler (`api/status/__init__.py`) -/

structure ReadinessStatus where
  video : Bool
  quiz : Bool
  ready : Bool
deriving DecidableEq

/-- The readiness computation of `status.main` (status/__init__.py lines 13–16):
`video_ready = artifacts.get("video") is not None`, likewise for quiz,
`ready = video_ready and quiz_ready`.  Recomputed from the listings on
every call; nothing is cached. -/
def reconcile (st : Listings) (b : PyStr) : ReadinessStatus :=
  let artifacts := find_processed_artifacts st b
  { video := artifacts.video.isSome
    quiz := artifacts.quiz.isSome
    ready := artifacts.video.isSome && artifacts.quiz.isSome }

/-! ## `list_known_doc_bases` (`api/shared_blob.py` lines 347–368) -/

/-- Order-preserving de-duplication (the `seen` loop of `list_uploaded_docs`). -/
def pyDedupAux (seen : List PyStr) : List PyStr → List PyStr
  | [] => []
  | x :: xs => if x ∈ seen then pyDedupAux seen xs else x :: pyDedupAux (x :: seen) xs

def pyDedup (l : List PyStr) : List PyStr := pyDedupAux [] l

/-- `list_uploaded_docs` (shared_blob.py lines 122–141): upload-container
listing, then the in-memory fallback keys, de-duplicated preserving order. -/
def list_uploaded_docs (st : Listings) : List PyStr :=
  pyDedup (list_blobs st.upload ++ st.memStore)

/-- The inline decoding applied to uploaded names in `list_known_doc_bases`
(lines 352–356): timestamp strip then extension strip, with no
manifest-suffix handling. -/
def uploadNameBase (n : PyStr) : PyStr := stripLastExt (stripTimestamp n)

/-- Bases contributed by the upload container (and the in-memory store). -/
def uploadBases (st : Listings) : List PyStr :=
  (list_uploaded_docs st).map uploadNameBase

/-- Bases contributed by `generated-videos` (only `.video.json` blobs). -/
def videoManifestBases (st : Listings) : List PyStr :=
  ((list_blobs st.videos).filter (fun n => VIDEO_SUFFIX.isSuffixOf n)).map extract_doc_base

/-- Bases contributed by `generated-video-files` (every blob). -/
def videoFileBases (st : Listings) : List PyStr :=
  (list_blobs st.videoFiles).map extract_doc_base

/-- Bases contributed by `quiz-data` (only `.quiz.json` blobs). -/
def quizBases (st : Listings) : List PyStr :=
  ((list_blobs st.quiz).filter (fun n => QUIZ_SUFFIX.isSuffixOf n)).map extract_doc_base

/-- `list_known_doc_bases` (shared_blob.py lines 347–368): `sorted(bases)`
over the set union of the four contributions, with Python's exact-string
set semantics and lexicographic (code-point) string order. -/
def list_known_doc_bases (st : Listings) : List PyStr :=
  List.insertionSort (· ≤ ·)
    (pyDedup (uploadBases st ++ videoManifestBases st ++ videoFileBases st ++ quizBases st))

/-! ## Manifests (spec §3 data model) -/

structure Scene where
  title : Option PyStr
  heading : Option PyStr
  badge : Option PyStr
  index : Option Int
  text : Option PyStr
  narration : Option PyStr
deriving DecidableEq

structure VideoManifest where
  summary : Option PyStr
  scenes : Option (List Scene)
deriving DecidableEq

structure Question where
  text : Option PyStr
  question : Option PyStr
  options : Option (List PyStr)
  correctIndex : Option Int
deriving DecidableEq

structure QuizManifest where
  questions : Option (List Question)
deriving DecidableEq

/-! ## `textwrap.shorten` (Python stdlib, used by `_build_context_text`) -/

/-- Truncation step of `textwrap.shorten` with `max_lines=1`: greedily take
whole words (joined by single spaces) while leaving room for the
placeholder, then attach the placeholder; if not even the first word fits,
return the left-stripped placeholder.  (CPython first fills greedily to
`width` and then pops trailing chunks until the placeholder fits, which
yields the same maximal word prefix because joined length is monotone in
the number of words; an over-long broken first word is likewise popped
again before the placeholder is attached.) -/
def fitPrefix (width : Nat) (ph : PyStr) (cur : PyStr) : List PyStr → PyStr
  | [] => cur ++ ph
  | w :: ws =>
    let cand := if cur = [] then w else cur ++ ' ' :: w
    if cand.length + ph.length ≤ width then fitPrefix width ph cand ws
    else if cur = [] then pyLstrip ph
    else cur ++ ph

/-- Model of Python `textwrap.shorten(text, width, placeholder)`: collapse
every whitespace run to a single space (`' '.join(text.split())`); if the
collapsed text fits in `width` return it unchanged, else truncate on a word
boundary and attach the placeholder. -/
def pyShorten (s : PyStr) (width : Nat) (ph : PyStr) : PyStr :=
  let ws := pyWords s
  let collapsed := List.intercalate [' '] ws
  if collapsed.length ≤ width then collapsed else fitPrefix width ph [] ws

/-! ## Context Assembler, orchestrator variant (`api/chatbot/__init__.py`) -/

/-- `_build_context_text` (chatbot/__init__.py lines 28–58). -/
def build_context_text (video : VideoManifest) (quiz : QuizManifest) (max_chars : Nat) : PyStr :=
  let parts : List PyStr :=
    match truthyStr video.summary with
    | some s => ["Summary: ".data ++ s]
    | none => []
  let scenes := video.scenes.getD []
  let formatted_scenes := (scenes.take 6).map (fun sc =>
    "- ".data ++ pyOrD sc.title (pyOrD sc.heading "Scene".data) ++ ": ".data ++
      pyOrD sc.text (pyOrD sc.narration []))
  let parts := parts ++
    (if formatted_scenes = [] then []
     else ["Scenes:\n".data ++ List.intercalate "\n".data formatted_scenes])
  let questions := quiz.questions.getD []
  let formatted_questions := (questions.take 5).map (fun q =>
    let q_text := pyOr q.text q.question
    let options := q.options.getD []
    let answer_idx := q.correctIndex.getD 0
    let answer : Option PyStr :=
      if 0 ≤ answer_idx ∧ answer_idx < (options.length : Int) then options.get? answer_idx.toNat
      else none
    "Q: ".data ++ pyOrD q_text [] ++
      (match truthyStr answer with
       | some a => "\nA: ".data ++ a
       | none => []))
  let parts := parts ++
    (if formatted_questions = [] then []
     else ["Quiz insights:\n".data ++ List.intercalate "\n".data formatted_questions])
  let context :=
    if parts = [] then "No context available.".data
    else List.intercalate "\n\n".data parts
  pyShorten context max_chars "\n…".data

/-! ## Context Assembler, chat_logic variant (`api/chatbot/chat_logic.py`) -/

def MAX_CONTEXT_CHARACTERS : Nat := 6000

/-- `_build_context` (chat_logic.py lines 113–142). -/
def build_context (video : VideoManifest) (quiz : Option QuizManifest) : PyStr :=
  let lines : List PyStr :=
    (let summary := pyStrip (video.summary.getD [])
     if summary = [] then [] else ["Document Summary:\n".data ++ summary])
  let lines := lines ++
    (match video.scenes with
     | some scs =>
       if scs = [] then []
       else
         "Key Scenes:".data ::
           (scs.take 8).filterMap (fun sc =>
             let title := pyStrip (pyOrD sc.title (pyOrD sc.badge
               ("Scene ".data ++ (match sc.index with
                 | some i => (toString i).data
                 | none => []))))
             let text := pyStrip (pyOrD sc.text (pyOrD sc.narration []))
             if text = [] then none
             else some ("- ".data ++ title ++ ": ".data ++ text))
     | none => [])
  let lines := lines ++
    (match quiz with
     | some qz =>
       match qz.questions with
       | some qs =>
         let qa_lines := (qs.take 3).filterMap (fun item =>
           let stem := pyOr item.text item.question
           let options := item.options.getD []
           match truthyStr stem, item.correctIndex with
           | some st, some i =>
             if options ≠ [] ∧ 0 ≤ i ∧ i < (options.length : Int) then
               some ("Q: ".data ++ st ++ "\nA: ".data ++ (options.get? i.toNat).getD [])
             else none
           | _, _ => none)
         if qa_lines = [] then [] else "Sample Quiz Knowledge:".data :: qa_lines
       | none => []
     | none => [])
  let context := pyStrip (List.intercalate "\n\n".data lines)
  context.take MAX_CONTEXT_CHARACTERS

/-! ## Answer Orchestrator (`api/chatbot/__init__.py`) -/

/-- JSON values, for the completion-service response body. -/
inductive Json where
  | null
  | bool (b : Bool)
  | num (n : Int)
  | str (s : PyStr)
  | arr (elems : List Json)
  | obj (fields : List (PyStr × Json))

/-- Python truthiness of a JSON value. -/
def jsonTruthy : Json → Bool
  | .null => false
  | .bool b => b
  | .num n => n != 0
  | .str s => !s.isEmpty
  | .arr xs => !xs.isEmpty
  | .obj fs => !fs.isEmpty

/-- `value.get(key)`: `None` default on a dict, `AttributeError` otherwise. -/
def jsonGet (j : Json) (key : PyStr) : Except PyStr (Option Json) :=
  match j with
  | .obj fs => .ok ((fs.find? (fun p => p.1 == key)).map Prod.snd)
  | _ => .error "AttributeError".data

/-- `value.get(key, default)` on a dict, `AttributeError` otherwise. -/
def jsonGetD (j : Json) (key : PyStr) (d : Json) : Except PyStr Json :=
  match j with
  | .obj fs => .ok (((fs.find? (fun p => p.1 == key)).map Prod.snd).getD d)
  | _ => .error "AttributeError".data

/-- `value[0]`: head of a list, one-character string of a string,
`KeyError` on a dict (JSON keys are strings), `TypeError` otherwise. -/
def jsonIndex0 (j : Json) : Except PyStr Json :=
  match j with
  | .arr (x :: _) => .ok x
  | .arr [] => .error "IndexError".data
  | .str (c :: _) => .ok (.str [c])
  | .str [] => .error "IndexError".data
  | .obj _ => .error "KeyError".data
  | _ => .error "TypeError".data

/-- Outcome of the `requests.post` call to the completion service, as the
code can observe it: `reqError` is any `requests.RequestException`
(connection error, timeout, and an undecodable JSON body, whose
`JSONDecodeError` derives from `RequestException` in requests ≥ 2.27);
otherwise an HTTP response with its status and decoded JSON body. -/
inductive UpstreamOutcome where
  | reqError
  | response (status : Nat) (body : Option Json)

/-- `_call_azure_openai` (chatbot/__init__.py lines 104–117), modelled after
configuration resolution (when configuration is missing the code returns
`None` before any call, which the caller handles like any other `None`).
An uncaught exception in the response-shape accesses is `Except.error`. -/
def call_azure_openai (out : UpstreamOutcome) : Except PyStr (Option Json) :=
  match out with
  | .reqError => .ok none
  | .response status body =>
    if 400 ≤ status then .ok none
    else
      match body with
      | none => .ok none
      | some data =>
        match jsonGet data "choices".data with
        | .error e => .error e
        | .ok choicesOpt =>
          let choices : Json :=
            match choicesOpt with
            | some c => if jsonTruthy c then c else .arr []
            | none => .arr []
          if jsonTruthy choices then
            match jsonIndex0 choices with
            | .error e => .error e
            | .ok c0 =>
              match jsonGetD c0 "message".data (.obj []) with
              | .error e => .error e
              | .ok msg =>
                match jsonGet msg "content".data with
                | .error e => .error e
                | .ok content => .ok content
          else .ok none

def AI_FALLBACK_PREFIX : PyStr :=
  "I wasn\x27t able to reach the AI service right now, but here\x27s what the storyboard summary says:\n".data

def GENERIC_APOLOGY : PyStr := "I couldn\x27t retrieve enough context to answer that.".data

/-- The fallback answer `main` builds when `_call_azure_openai` yields no
usable answer: the unreachable-service notice followed by `video.summary`
when truthy, else the generic apology. -/
def fallbackText (video : VideoManifest) : PyStr :=
  AI_FALLBACK_PREFIX ++ pyOrD video.summary GENERIC_APOLOGY

/-- The answer-resolution core of `chatbot.main` (chatbot/__init__.py lines
157–173), after request validation and context loading: invoke the
completion call, substitute the fallback answer when the result is missing
or falsy, and answer HTTP 200.  An exception escaping `_call_azure_openai`
propagates out of `main` (no enclosing handler), modelled as `Except.error`. -/
def chat_answer (video : VideoManifest) (out : UpstreamOutcome) : Except PyStr (Nat × Json) :=
  match call_azure_openai out with
  | .error e => .error e
  | .ok ans =>
    let answer : Json :=
      match ans with
      | some j => if jsonTruthy j then j else .str (fallbackText video)
      | none => .str (fallbackText video)
    .ok (200, answer)

/-- The failure modes of the completion call that `_call_azure_openai`
catches and converts to `None` (hence to the fallback answer): a request
exception (network error, timeout, undecodable body), a 4xx/5xx status
(the guard is `response.status_code >= 400`, so a 3xx response is NOT
treated as a failure), or a decoded JSON object without a truthy
`choices` entry. -/
def handledFailure : UpstreamOutcome → Bool
  | .reqError => true
  | .response status body =>
    decide (400 ≤ status) ||
    (match body with
     | none => true
     | some data =>
       match jsonGet data "choices".data with
       | .error _ => false
       | .ok none => true
       | .ok (some c) => !jsonTruthy c)

/-! ## First/last match readings over `generated-video-files` (for C1) -/

/-- The first listed blob whose extension marks a rendered video and whose
decoded base matches (the claim's reading for the rendered-video field). -/
def firstVideoFileMatch (b : PyStr) (names : List PyStr) : Option PyStr :=
  names.find? (fun n => isVideoExt n && match_processed b n)

/-- The last listed blob whose extension marks a rendered video and whose
decoded base matches (what the loop actually keeps). -/
def lastVideoFileMatch (b : PyStr) (names : List PyStr) : Option PyStr :=
  names.reverse.find? (fun n => isVideoExt n && match_processed b n)

/-- The first listed blob whose extension marks a thumbnail image and whose
decoded base matches. -/
def firstThumbnailMatch (b : PyStr) (names : List PyStr) : Option PyStr :=
  names.find? (fun n => isImageExt n && match_processed b n)

/-! ## Concrete inputs for counterexamples and scenario evaluation -/

/-- The listings used for the C1 counterexample: two rendered-video blobs
that both decode to base `doc`. -/
def c1State : Listings :=
  { upload := none
    videos := none
    videoFiles := some ["doc.mp4".data, "20250101120000_doc.mp4".data]
    quiz := none
    memStore := [] }

def c3video : VideoManifest :=
  { summary := some "Overview".data
    scenes := some [{ title := some "Intro".data, heading := none, badge := none,
                      index := none, text := some "Hello".data, narration := none }] }

def c3quiz : QuizManifest :=
  { questions := some [{ text := some "Q1?".data, question := none,
                         options := some ["A".data, "B".data], correctIndex := some 1 }] }

def c6video : VideoManifest := { summary := some "Overview".data, scenes := some [] }

/-! ## Helper lemmas -/

theorem match_processed_eq (b n : PyStr) :
    match_processed b n = (pyLower (extract_doc_base n) == pyLower b) := rfl

theorem match_processed_true_iff (b n : PyStr) :
    match_processed b n = true ↔ pyLower (extract_doc_base n) = pyLower b := by
  rw [match_processed_eq]
  exact beq_iff_eq

theorem hasTsPrefix_iff (n : PyStr) : hasTsPrefix n = true ↔ matchesTsRegex n := by
  unfold hasTsPrefix matchesTsRegex
  simp [Bool.and_eq_true]
  constructor
  · rintro ⟨⟨h1, h2⟩, h3⟩
    exact ⟨by omega, h2, h3⟩
  · rintro ⟨h1, h2, h3⟩
    exact ⟨⟨by omega, h2⟩, h3⟩

theorem hasTsPrefix_append_dot (b s : PyStr) (hb : validBase b)
    (h0 : s.get? 0 = some '.') : hasTsPrefix (b ++ s) = false := by
  rw [Bool.eq_false_iff]
  intro h
  rw [hasTsPrefix_iff] at h
  obtain ⟨h1, h2, h3⟩ := h
  rw [List.get?_eq_getElem?] at h0
  rw [List.get?_eq_getElem?] at h3
  rcases Nat.lt_trichotomy b.length 14 with hlt | heq | hgt
  · have hidx : ((b ++ s).take 14)[b.length]? = some '.' := by
      rw [List.getElem?_take_of_lt hlt, List.getElem?_append_right (Nat.le_refl _),
        Nat.sub_self]
      exact h0
    have hmem : ('.' : Char) ∈ (b ++ s).take 14 := List.getElem?_mem hidx
    have hd := (List.all_eq_true.mp h2) '.' hmem
    exact absurd hd (by decide)
  · have hdot : (b ++ s)[14]? = some '.' := by
      rw [List.getElem?_append_right (Nat.le_of_eq heq), heq, Nat.sub_self]
      exact h0
    rw [hdot] at h3
    exact absurd h3 (by decide)
  · refine hb.2 ⟨by omega, ?_, ?_⟩
    · rw [← List.take_append_of_le_length (by omega : 14 ≤ b.length)]
      exact h2
    · rw [List.get?_eq_getElem?, ← List.getElem?_append_left (by omega : 14 < b.length)]
      exact h3

theorem stripLastExt_no_dot (b : PyStr) (hb : '.' ∉ b) : stripLastExt b = b := by
  have h : b.reverse.dropWhile (fun c => c ≠ '.') = [] := by
    rw [List.dropWhile_eq_nil_iff]
    intro x hx
    simp only [List.mem_reverse] at hx
    simp only [ne_eq, decide_not, Bool.not_eq_true', decide_eq_false_iff_not]
    exact fun hdot => hb (hdot ▸ hx)
  unfold stripLastExt
  rw [h]

theorem dropSuffix_append (b s : PyStr) : dropSuffix (b ++ s) s = b := by
  unfold dropSuffix
  rw [List.length_append, Nat.add_sub_cancel]
  exact List.take_left b s

theorem isSuffixOf_append_self (b s : PyStr) : s.isSuffixOf (b ++ s) = true := by
  rw [List.isSuffixOf_iff_suffix]
  exact List.suffix_append b s

theorem video_not_suffix_quiz (b : PyStr) :
    VIDEO_SUFFIX.isSuffixOf (b ++ QUIZ_SUFFIX) = false := by
  rw [Bool.eq_false_iff]
  intro h
  rw [List.isSuffixOf_iff_suffix] at h
  have hq : QUIZ_SUFFIX <:+ b ++ QUIZ_SUFFIX := List.suffix_append b QUIZ_SUFFIX
  have hqs : QUIZ_SUFFIX <:+ VIDEO_SUFFIX :=
    List.suffix_of_suffix_length_le hq h (by decide)
  rw [← List.isSuffixOf_iff_suffix] at hqs
  exact absurd hqs (by decide)

theorem stripSuffixAndExt_video (c : PyStr) (h : VIDEO_SUFFIX.isSuffixOf c = true) :
    stripSuffixAndExt c = stripLastExt (dropSuffix c VIDEO_SUFFIX) := by
  simp [stripSuffixAndExt, h]

theorem stripSuffixAndExt_quiz (c : PyStr) (h1 : VIDEO_SUFFIX.isSuffixOf c = false)
    (h2 : QUIZ_SUFFIX.isSuffixOf c = true) :
    stripSuffixAndExt c = stripLastExt (dropSuffix c QUIZ_SUFFIX) := by
  simp [stripSuffixAndExt, h1, h2]

theorem stripTimestamp_encode (b : PyStr) (hb : validBase b) (s : PyStr)
    (h0 : s.get? 0 = some '.') : stripTimestamp (b ++ s) = b ++ s := by
  unfold stripTimestamp
  rw [hasTsPrefix_append_dot b s hb h0]
  simp

/-! ## Claim theorems -/

/-- C2: for every valid document base `b` (no `.`, no timestamp-shaped
prefix, per the data model of the spec) and every artifact kind, decoding
the canonical encoded object name (`{b}.video.json` / `{b}.quiz.json`)
with `_extract_doc_base` yields `b` again. -/
theorem decode_encode_roundtrip (b : PyStr) (hb : validBase b) (k : ArtifactKind) :
    extract_doc_base (encode b k) = b := by
  cases k
  case video =>
    show stripSuffixAndExt (stripTimestamp (b ++ VIDEO_SUFFIX)) = b
    rw [stripTimestamp_encode b hb VIDEO_SUFFIX (by decide),
      stripSuffixAndExt_video _ (isSuffixOf_append_self b VIDEO_SUFFIX),
      dropSuffix_append, stripLastExt_no_dot b hb.1]
  case quiz =>
    show stripSuffixAndExt (stripTimestamp (b ++ QUIZ_SUFFIX)) = b
    rw [stripTimestamp_encode b hb QUIZ_SUFFIX (by decide),
      stripSuffixAndExt_quiz _ (video_not_suffix_quiz b)
        (isSuffixOf_append_self b QUIZ_SUFFIX),
      dropSuffix_append, stripLastExt_no_dot b hb.1]

/-- Witness for C2: the round-trip evaluated at the concrete valid base
`"Project Alpha"` for both kinds. -/
theorem decode_encode_roundtrip_witness :
    validBase "Project Alpha".data ∧
    extract_doc_base (encode "Project Alpha".data ArtifactKind.video) = "Project Alpha".data ∧
    extract_doc_base (encode "Project Alpha".data ArtifactKind.quiz) = "Project Alpha".data :=
  ⟨by decide, decode_encode_roundtrip _ (by decide) _, decode_encode_roundtrip _ (by decide) _⟩

/-- C8: a name matching `\d{14}_.+` (fourteen decimal digits, an
underscore, then at least one further character) has exactly its first 15
characters stripped before any suffix or extension processing, in both
decoder entry points; a name not of this shape keeps its prefix. -/
theorem decode_timestamp_strip (b n : PyStr) :
    (matchesTsRegex n →
      stripTimestamp n = n.drop 15 ∧
      extract_doc_base n = stripSuffixAndExt (n.drop 15) ∧
      match_processed b n = (pyLower (stripSuffixAndExt (n.drop 15)) == pyLower b)) ∧
    (¬ matchesTsRegex n →
      stripTimestamp n = n ∧
      extract_doc_base n = stripSuffixAndExt n ∧
      match_processed b n = (pyLower (stripSuffixAndExt n) == pyLower b)) := by
  constructor
  · intro h
    have hts : hasTsPrefix n = true := (hasTsPrefix_iff n).mpr h
    have h15 : stripTimestamp n = n.drop 15 := by
      unfold stripTimestamp
      rw [hts]
      simp
    refine ⟨h15, ?_, ?_⟩
    · show stripSuffixAndExt (stripTimestamp n) = _
      rw [h15]
    · rw [match_processed_eq]
      show (pyLower (stripSuffixAndExt (stripTimestamp n)) == pyLower b) = _
      rw [h15]
  · intro h
    have hts : hasTsPrefix n = false := by
      rw [Bool.eq_false_iff]
      intro hc
      exact h ((hasTsPrefix_iff n).mp hc)
    have h15 : stripTimestamp n = n := by
      unfold stripTimestamp
      rw [hts]
      simp
    refine ⟨h15, ?_, ?_⟩
    · show stripSuffixAndExt (stripTimestamp n) = _
      rw [h15]
    · rw [match_processed_eq]
      show (pyLower (stripSuffixAndExt (stripTimestamp n)) == pyLower b) = _
      rw [h15]

/-- Witness for C8: a timestamp-prefixed name is stripped of exactly 15
characters; a name with a 13-digit prefix keeps its prefix. -/
theorem decode_timestamp_strip_witness :
    stripTimestamp "20250101120000_doc.txt".data = "doc.txt".data ∧
    stripTimestamp "2025010112000_doc.txt".data = "2025010112000_doc.txt".data :=
  ⟨((decode_timestamp_strip [] _).1 (by decide)).1,
   ((decode_timestamp_strip [] _).2 (by decide)).1⟩

/-- C10: the matching predicate `_match_processed(b, n)` holds exactly when
the decoded base `_extract_doc_base(n)` equals `b` under case-insensitive
comparison — the two implementations of the decode step agree. -/
theorem match_processed_agrees_with_extract (b n : PyStr) :
    match_processed b n = true ↔ pyLower (extract_doc_base n) = pyLower b :=
  match_processed_true_iff b n

/-- C7: `locate` never propagates a storage failure.  A failed (or absent)
container listing — modelled as `none` — contributes no artifacts: its
`ArtifactSet` fields are `null`, and the fields derived from the other
containers are exactly what they would have been anyway.  The upload
container is not consulted at all. -/
theorem locate_degrades_per_container (st : Listings) (b : PyStr) :
    find_processed_artifacts { st with videos := none } b =
      { find_processed_artifacts st b with video := none } ∧
    find_processed_artifacts { st with videoFiles := none } b =
      { find_processed_artifacts st b with videoFile := none, thumbnail := none } ∧
    find_processed_artifacts { st with quiz := none } b =
      { find_processed_artifacts st b with quiz := none } ∧
    find_processed_artifacts { st with upload := none } b = find_processed_artifacts st b :=
  ⟨rfl, rfl, rfl, rfl⟩

/-- C4: `reconcile(b).ready` is true exactly when some listed object of
`generated-videos` ends in `.video.json` and decodes to `b`
(case-insensitively) and some listed object of `quiz-data` ends in
`.quiz.json` and decodes to `b`; equivalently, `ready` is the conjunction
of the presence flags of the `locate` result (recomputed from the
listings, nothing cached). -/
theorem reconcile_ready_iff (st : Listings) (b : PyStr) :
    ((reconcile st b).ready = true ↔
      ((∃ n ∈ list_blobs st.videos, VIDEO_SUFFIX.isSuffixOf n = true ∧
          pyLower (extract_doc_base n) = pyLower b) ∧
       (∃ n ∈ list_blobs st.quiz, QUIZ_SUFFIX.isSuffixOf n = true ∧
          pyLower (extract_doc_base n) = pyLower b))) ∧
    (reconcile st b).ready = ((find_processed_artifacts st b).video.isSome &&
      (find_processed_artifacts st b).quiz.isSome) := by
  refine ⟨?_, rfl⟩
  have hv : (find_processed_artifacts st b).video.isSome = true ↔
      ∃ n ∈ list_blobs st.videos, VIDEO_SUFFIX.isSuffixOf n = true ∧
        pyLower (extract_doc_base n) = pyLower b := by
    show (List.find? _ _).isSome = true ↔ _
    simp [List.find?_isSome, Bool.and_eq_true, match_processed_true_iff]
  have hq : (find_processed_artifacts st b).quiz.isSome = true ↔
      ∃ n ∈ list_blobs st.quiz, QUIZ_SUFFIX.isSuffixOf n = true ∧
        pyLower (extract_doc_base n) = pyLower b := by
    show (List.find? _ _).isSome = true ↔ _
    simp [List.find?_isSome, Bool.and_eq_true, match_processed_true_iff]
  have hr : (reconcile st b).ready = ((find_processed_artifacts st b).video.isSome &&
      (find_processed_artifacts st b).quiz.isSome) := rfl
  rw [hr, Bool.and_eq_true, hv, hq]

/-! ## C1: first/last match over `generated-video-files` -/

theorem ext_clash (n e1 e2 : PyStr) (h1 : e1.isSuffixOf n = true)
    (h2 : e2.isSuffixOf n = true) (hne : e1.isSuffixOf e2 = false)
    (hne' : e2.isSuffixOf e1 = false) : False := by
  rw [List.isSuffixOf_iff_suffix] at h1 h2
  rcases List.suffix_or_suffix_of_suffix h1 h2 with h | h <;>
    rw [← List.isSuffixOf_iff_suffix] at h
  · rw [hne] at h
    cases h
  · rw [hne'] at h
    cases h

/-- No name carries both a rendered-video and a thumbnail extension. -/
theorem isVideoExt_isImageExt (n : PyStr) :
    ¬ (isVideoExt n = true ∧ isImageExt n = true) := by
  rintro ⟨h1, h2⟩
  rw [isVideoExt, List.any_eq_true] at h1
  rw [isImageExt, List.any_eq_true] at h2
  obtain ⟨e1, he1, hs1⟩ := h1
  obtain ⟨e2, he2, hs2⟩ := h2
  simp only [videoExts, List.mem_cons, List.not_mem_nil, or_false] at he1
  simp only [imageExts, List.mem_cons, List.not_mem_nil, or_false] at he2
  rcases he1 with rfl | rfl | rfl | rfl <;> rcases he2 with rfl | rfl | rfl | rfl <;>
    exact ext_clash _ _ _ hs1 hs2 (by decide) (by decide)

theorem videoFileScan_fst (b : PyStr) (names : List PyStr) :
    ∀ vf th : Option PyStr,
      (videoFileScan b names (vf, th)).1 = (lastVideoFileMatch b names).or vf := by
  induction names with
  | nil =>
    intro vf th
    simp [videoFileScan, lastVideoFileMatch]
  | cons n rest ih =>
    intro vf th
    have hrev : lastVideoFileMatch b (n :: rest) =
        (lastVideoFileMatch b rest).or
          ([n].find? (fun m => isVideoExt m && match_processed b m)) := by
      unfold lastVideoFileMatch
      rw [List.reverse_cons, List.find?_append]
    cases hv : (isVideoExt n && match_processed b n) with
    | true =>
      have hn : [n].find? (fun m => isVideoExt m && match_processed b m) = some n :=
        List.find?_cons_of_pos _ hv
      rw [show videoFileScan b (n :: rest) (vf, th) = videoFileScan b rest (some n, th) by
          simp [videoFileScan, hv],
        ih, hrev, hn, Option.or_assoc, Option.or_some]
    | false =>
      have hn : [n].find? (fun m => isVideoExt m && match_processed b m) = none := by
        rw [List.find?_cons_of_neg _ (by simp [hv]), List.find?_nil]
      rw [hrev, hn, Option.or_none]
      cases hi : (isImageExt n && match_processed b n) with
      | true =>
        rw [show videoFileScan b (n :: rest) (vf, th) =
            videoFileScan b rest (vf, if th = none then some n else th) by
            simp [videoFileScan, hv, hi],
          ih]
      | false =>
        rw [show videoFileScan b (n :: rest) (vf, th) = videoFileScan b rest (vf, th) by
            simp [videoFileScan, hv, hi],
          ih]

theorem videoFileScan_snd (b : PyStr) (names : List PyStr) :
    ∀ vf th : Option PyStr,
      (videoFileScan b names (vf, th)).2 = th.or (firstThumbnailMatch b names) := by
  induction names with
  | nil =>
    intro vf th
    simp [videoFileScan, firstThumbnailMatch]
  | cons n rest ih =>
    intro vf th
    cases hv : (isVideoExt n && match_processed b n) with
    | true =>
      have hi : (isImageExt n && match_processed b n) = false := by
        rw [Bool.eq_false_iff]
        intro hc
        rw [Bool.and_eq_true] at hv hc
        exact isVideoExt_isImageExt n ⟨hv.1, hc.1⟩
      have hfirst : firstThumbnailMatch b (n :: rest) = firstThumbnailMatch b rest :=
        List.find?_cons_of_neg _ (by simp [hi])
      rw [show videoFileScan b (n :: rest) (vf, th) = videoFileScan b rest (some n, th) by
          simp [videoFileScan, hv],
        ih, hfirst]
    | false =>
      cases hi : (isImageExt n && match_processed b n) with
      | true =>
        have hfirst : firstThumbnailMatch b (n :: rest) = some n :=
          List.find?_cons_of_pos _ hi
        have hupd : (if th = none then some n else th) = th.or (some n) := by
          cases th <;> simp
        rw [show videoFileScan b (n :: rest) (vf, th) =
            videoFileScan b rest (vf, if th = none then some n else th) by
            simp [videoFileScan, hv, hi],
          ih, hupd, hfirst, Option.or_assoc, Option.or_some]
      | false =>
        have hfirst : firstThumbnailMatch b (n :: rest) = firstThumbnailMatch b rest :=
          List.find?_cons_of_neg _ (by simp [hi])
        rw [show videoFileScan b (n :: rest) (vf, th) = videoFileScan b rest (vf, th) by
            simp [videoFileScan, hv, hi],
          ih, hfirst]

/-- C1 counterexample: with two matching rendered-video blobs listed, the
rendered-video field of the returned `ArtifactSet` is the LAST matching
blob in listing order, not the first one the claim requires. -/
theorem locate_video_file_not_first :
    (find_processed_artifacts c1State "doc".data).videoFile =
      some "20250101120000_doc.mp4".data ∧
    firstVideoFileMatch "doc".data (list_blobs c1State.videoFiles) =
      some "doc.mp4".data ∧
    (find_processed_artifacts c1State "doc".data).videoFile ≠
      firstVideoFileMatch "doc".data (list_blobs c1State.videoFiles) := by
  refine ⟨?_, ?_, ?_⟩ <;> decide

/-- C1 (amended): in `locate` over `generated-video-files`, the thumbnail
field is the FIRST matching image blob in listing order, but the
rendered-video field is the LAST matching video blob in listing order
(each kind matched by extension and case-insensitive decoded base). -/
theorem locate_video_file_last_thumbnail_first (st : Listings) (b : PyStr) :
    (find_processed_artifacts st b).videoFile =
      lastVideoFileMatch b (list_blobs st.videoFiles) ∧
    (find_processed_artifacts st b).thumbnail =
      firstThumbnailMatch b (list_blobs st.videoFiles) := by
  constructor
  · show (videoFileScan b (list_blobs st.videoFiles) (none, none)).1 = _
    rw [videoFileScan_fst, Option.or_none]
  · show (videoFileScan b (list_blobs st.videoFiles) (none, none)).2 = _
    rw [videoFileScan_snd, Option.none_or]

/-! ## C9: `list_known_doc_bases` -/

theorem mem_pyDedupAux (x : PyStr) :
    ∀ (l seen : List PyStr), x ∈ pyDedupAux seen l ↔ (x ∈ l ∧ x ∉ seen) := by
  intro l
  induction l with
  | nil =>
    intro seen
    simp [pyDedupAux]
  | cons y ys ih =>
    intro seen
    by_cases hy : y ∈ seen
    · rw [show pyDedupAux seen (y :: ys) = pyDedupAux seen ys by simp [pyDedupAux, hy], ih]
      constructor
      · rintro ⟨h1, h2⟩
        exact ⟨List.mem_cons_of_mem _ h1, h2⟩
      · rintro ⟨h1, h2⟩
        rcases List.mem_cons.mp h1 with rfl | h1'
        · exact absurd hy h2
        · exact ⟨h1', h2⟩
    · rw [show pyDedupAux seen (y :: ys) = y :: pyDedupAux (y :: seen) ys by
        simp [pyDedupAux, hy]]
      rw [List.mem_cons, ih]
      constructor
      · rintro (rfl | ⟨h1, h2⟩)
        · exact ⟨List.mem_cons_self _ _, hy⟩
        · exact ⟨List.mem_cons_of_mem _ h1,
            fun hx => h2 (List.mem_cons_of_mem _ hx)⟩
      · rintro ⟨h1, h2⟩
        rcases List.mem_cons.mp h1 with rfl | h1'
        · exact Or.inl rfl
        · by_cases hxy : x = y
          · exact Or.inl hxy
          · refine Or.inr ⟨h1', fun hx => ?_⟩
            rcases List.mem_cons.mp hx with h | h
            · exact hxy h
            · exact h2 h

theorem nodup_pyDedupAux : ∀ (l seen : List PyStr), (pyDedupAux seen l).Nodup := by
  intro l
  induction l with
  | nil =>
    intro seen
    simp [pyDedupAux]
  | cons y ys ih =>
    intro seen
    by_cases hy : y ∈ seen
    · rw [show pyDedupAux seen (y :: ys) = pyDedupAux seen ys by simp [pyDedupAux, hy]]
      exact ih seen
    · rw [show pyDedupAux seen (y :: ys) = y :: pyDedupAux (y :: seen) ys by
        simp [pyDedupAux, hy]]
      refine List.nodup_cons.mpr ⟨?_, ih _⟩
      intro hmem
      exact ((mem_pyDedupAux y _ _).mp hmem).2 (List.mem_cons_self _ _)

/-- C9: `list_known_doc_bases` returns exactly the union of the decoded
bases contributed by the upload container (with the in-memory fallback),
the `.video.json` blobs of `generated-videos`, all blobs of
`generated-video-files` and the `.quiz.json` blobs of `quiz-data`, without
duplicates under exact (case-sensitive) string equality, sorted ascending
in code-point order; on a state listing `Doc.txt` and `doc.txt`, both
`Doc` and `doc` appear. -/
theorem list_known_doc_bases_spec :
    (∀ st : Listings,
      (list_known_doc_bases st).Sorted (· ≤ ·) ∧
      (list_known_doc_bases st).Nodup ∧
      (∀ x, x ∈ list_known_doc_bases st ↔
        (x ∈ uploadBases st ∨ x ∈ videoManifestBases st ∨
         x ∈ videoFileBases st ∨ x ∈ quizBases st))) ∧
    list_known_doc_bases
      { upload := some ["Doc.txt".data, "doc.txt".data], videos := none,
        videoFiles := none, quiz := none, memStore := [] } =
      ["Doc".data, "doc".data] := by
  constructor
  · intro st
    refine ⟨List.sorted_insertionSort _ _, ?_, ?_⟩
    · exact ((List.perm_insertionSort _ _).nodup_iff).mpr (nodup_pyDedupAux _ _)
    · intro x
      rw [list_known_doc_bases, (List.perm_insertionSort _ _).mem_iff, pyDedup,
        mem_pyDedupAux]
      simp [or_assoc]
  · decide

/-! ## C5: bounded context length -/

theorem pyLstrip_length_le (s : PyStr) : (pyLstrip s).length ≤ s.length :=
  (List.dropWhile_sublist _).length_le

theorem fitPrefix_length_le (width : Nat) (ph : PyStr) :
    ∀ (ws : List PyStr) (cur : PyStr),
      (cur = [] ∨ cur.length + ph.length ≤ width) →
      (fitPrefix width ph cur ws).length ≤ width + ph.length := by
  intro ws
  induction ws with
  | nil =>
    intro cur h
    show (cur ++ ph).length ≤ width + ph.length
    rw [List.length_append]
    rcases h with rfl | h
    · simp
    · omega
  | cons w ws ih =>
    intro cur h
    show (let cand := if cur = [] then w else cur ++ ' ' :: w
      if cand.length + ph.length ≤ width then fitPrefix width ph cand ws
      else if cur = [] then pyLstrip ph
      else cur ++ ph).length ≤ width + ph.length
    by_cases hfit : (if cur = [] then w else cur ++ ' ' :: w).length + ph.length ≤ width
    · rw [if_pos hfit]
      exact ih _ (Or.inr hfit)
    · rw [if_neg hfit]
      by_cases hcur : cur = []
      · rw [if_pos hcur]
        calc (pyLstrip ph).length ≤ ph.length := pyLstrip_length_le ph
          _ ≤ width + ph.length := Nat.le_add_left _ _
      · rw [if_neg hcur]
        rcases h with rfl | h
        · exact absurd rfl hcur
        · rw [List.length_append]
          omega

theorem pyShorten_length_le (s : PyStr) (width : Nat) (ph : PyStr) :
    (pyShorten s width ph).length ≤ width + ph.length := by
  unfold pyShorten
  by_cases h : (List.intercalate [' '] (pyWords s)).length ≤ width
  · rw [if_pos h]
    omega
  · rw [if_neg h]
    exact fitPrefix_length_le width ph (pyWords s) [] (Or.inl rfl)

/-- C5: for every video manifest and quiz manifest, the assembled context
never exceeds the configured limit (6000 characters) plus the length of
the ellipsis marker (`"\n…"`, 2 characters), however large the input
manifests — in the `textwrap.shorten` assembler variant; the hard-slice
chat_logic variant is bounded by the bare limit. -/
theorem assemble_length_bound (video : VideoManifest) (quiz : QuizManifest)
    (quizOpt : Option QuizManifest) :
    (build_context_text video quiz 6000).length ≤ 6000 + ("\n…".data).length ∧
    (build_context video quizOpt).length ≤ 6000 := by
  constructor
  · exact pyShorten_length_le _ 6000 _
  · exact List.length_take_le _ _

/-! ## C3: the assembled-scenario claim -/

/-- C3: evaluating both context assemblers on the claim's scenario.
`_build_context_text` pipes its newline-joined sections through
`textwrap.shorten`, which collapses every whitespace run to a single
space, so the returned string is one line: it contains
`"Summary: Overview"` and `"- Intro: Hello"` but not `"Q: Q1?"` followed
by a newline and `"A: B"`, and no blank-line joins survive; the
chat_logic `_build_context` keeps newlines but labels the summary
`"Document Summary:"`, so its output lacks `"Summary: Overview"`. -/
theorem assemble_scenario_flattened :
    build_context_text c3video c3quiz 6000 =
      "Summary: Overview Scenes: - Intro: Hello Quiz insights: Q: Q1? A: B".data ∧
    pyContains (build_context_text c3video c3quiz 6000) "Q: Q1?\nA: B".data = false ∧
    pyContains (build_context_text c3video c3quiz 6000) "\n\n".data = false ∧
    pyContains (build_context c3video (some c3quiz)) "Summary: Overview".data = false ∧
    pyContains (build_context c3video (some c3quiz)) "Q: Q1?\nA: B".data = true := by
  refine ⟨?_, ?_, ?_, ?_, ?_⟩ <;> decide

/-! ## C6: fallback on upstream failure -/

/-- C6 counterexample: a 200 response whose JSON body decodes to a
top-level array — a malformed completion body — makes the answer
operation raise (`data.get` on a list is an `AttributeError` that no
handler catches), instead of returning the fallback success result the
claim requires for every malformed response body. -/
theorem chat_answer_raises_on_array_body :
    chat_answer c6video (.response 200 (some (.arr []))) =
      .error "AttributeError".data := rfl

theorem call_azure_openai_handled (out : UpstreamOutcome)
    (h : handledFailure out = true) : call_azure_openai out = .ok none := by
  cases out with
  | reqError => rfl
  | response status body =>
    simp only [handledFailure, Bool.or_eq_true, decide_eq_true_eq] at h
    rcases h with hstat | hbody
    · simp [call_azure_openai, hstat]
    · by_cases hstat : 400 ≤ status
      · simp [call_azure_openai, hstat]
      · cases body with
        | none => simp [call_azure_openai, hstat]
        | some data =>
          change (match jsonGet data "choices".data with
            | .error _ => false
            | .ok none => true
            | .ok (some c) => !jsonTruthy c) = true at hbody
          rcases hg : jsonGet data "choices".data with e | copt
          · rw [hg] at hbody
            simp at hbody
          · rcases copt with _ | c
            · simp [call_azure_openai, hstat, hg, jsonTruthy]
            · rw [hg] at hbody
              simp at hbody
              simp [call_azure_openai, hstat, hg, hbody,
                show jsonTruthy (Json.arr []) = false from rfl]

/-- C6 (amended): for every video manifest and every completion failure
the code actually catches — request exception (network error, timeout,
undecodable JSON body), 4xx/5xx status (`status_code >= 400`), or a
decoded JSON object without a truthy `choices` entry — the answer
operation does not raise and returns HTTP 200 with an answer that starts
with the service-was-unreachable notice and ends with `video.summary`
when truthy (the generic apology otherwise).  A decoded body whose top
level is not a JSON object (or whose first choice or message is not an
object) instead raises an uncaught exception (see the counterexample),
and a 3xx response with a usable body is not treated as a failure at all:
the last conjunct shows a 302 response carrying a usable `choices` entry
returning the upstream answer instead of the fallback. -/
theorem chat_answer_fallback_on_handled_failure (video : VideoManifest)
    (out : UpstreamOutcome) (h : handledFailure out = true) :
    chat_answer video out = .ok (200, .str (fallbackText video)) ∧
    AI_FALLBACK_PREFIX <+: fallbackText video ∧
    pyOrD video.summary GENERIC_APOLOGY <:+ fallbackText video ∧
    chat_answer c6video
        (.response 302 (some (.obj [("choices".data,
          .arr [.obj [("message".data, .obj [("content".data, .str "ok".data)])]])]))) =
      .ok (200, .str "ok".data) := by
  refine ⟨?_, List.prefix_append _ _, List.suffix_append _ _, rfl⟩
  rw [chat_answer, call_azure_openai_handled out h]

/-- Witness for C6 (amended): a concrete 503 failure yields the fallback
success result. -/
theorem chat_answer_fallback_witness :
    handledFailure (.response 503 (some (.obj []))) = true ∧
    chat_answer { summary := some "Summary text".data, scenes := none }
        (.response 503 (some (.obj []))) =
      .ok (200, .str (fallbackText { summary := some "Summary text".data, scenes := none })) :=
  ⟨by decide,
   (chat_answer_fallback_on_handled_failure _ _ (by decide)).1⟩

